import Mathlib

/-!
Verification of the spatial-data extraction pipeline in
`src/backend/main.py` (NASA TEMPO/OMI NO2 analysis script).

Modelling conventions:
* A float cell value is modelled as `Option ℚ`: `none` stands for NaN
  (missing), `some q` for a finite value.  `pd.isna` becomes `Option.isNone`.
* A 2-D grid slice (after the time-slice selection of lines 350-361, which
  is pure xarray library code) is a `Grid`: latitude vector, longitude
  vector and a row-major matrix of cell values.
* An xarray `Dataset` is modelled as an association list from variable
  names to grids (Python dict lookup becomes `List.find?`).
* Python `print` output is modelled as a returned `List String` of lines.
* A raised exception is modelled as `Except.error`.
* The CPython `random` module holds a global Mersenne-Twister state; after
  `random.seed(n)` that state is a deterministic function of `n` alone.
  We model the state as `RandomState` and the word stream with a concrete
  deterministic mixer in place of MT19937 (the generator internals live in
  CPython, not in this repository); `random.sample` follows CPython's
  pool-based partial Fisher-Yates, which is the branch taken for the sizes
  used by the script.
-/

/-- One output sample: `[lat, lon, value]` (line 374 of `main.py`).
The value is `Option ℚ`: `none` models a NaN that is emitted verbatim. -/
structure Triplet where
  lat : ℚ
  lon : ℚ
  value : Option ℚ
deriving DecidableEq, Repr, Inhabited

/-- Model of `pd.isna` on a scalar float: true exactly on NaN (`none`). -/
def pdIsna (v : Option ℚ) : Bool := v.isNone

/-- The extraction loop of `get_spatial_data_as_list` (lines 369-375):
for each latitude index `i` (outer) and longitude index `j` (inner), read
`values[i, j]` and append `[lats[i], lons[j], val]` unless
`skip_nan` is set and the value is NaN. -/
def extract_triplets (lats lons : List ℚ) (values : List (List (Option ℚ)))
    (skip_nan : Bool) : List Triplet :=
  (List.range lats.length).flatMap fun i =>
    (List.range lons.length).filterMap fun j =>
      let val := (values.getD i []).getD j none
      if skip_nan && pdIsna val then none
      else some ⟨lats.getD i 0, lons.getD j 0, val⟩

/-- Spec-side definition for the refinement claim C1: the row-major
(latitude-major) outer-product enumeration of all grid cells, one triplet
per cell, latitude index outermost and longitude index innermost. -/
def rowMajorTriplets (lats lons : List ℚ) (values : List (List (Option ℚ))) :
    List Triplet :=
  (List.range lats.length).flatMap fun i =>
    (List.range lons.length).map fun j =>
      ⟨lats.getD i 0, lons.getD j 0, (values.getD i []).getD j none⟩

/-- Shape invariant xarray guarantees for a 2-D slice: the value matrix has
one row per latitude and one column per longitude. -/
def GridWF (lats lons : List ℚ) (values : List (List (Option ℚ))) : Prop :=
  values.length = lats.length ∧ ∀ row ∈ values, row.length = lons.length

/-- A 2-D data slice with its coordinate vectors. -/
structure Grid where
  lats : List ℚ
  lons : List ℚ
  values : List (List (Option ℚ))
deriving DecidableEq, Repr

/-- Model of an xarray Dataset: named data variables, each a 2-D slice. -/
structure Dataset where
  data_vars : List (String × Grid)

/-- The names in `ds.data_vars` (Python dict keys). -/
def dataVarNames (ds : Dataset) : List String := ds.data_vars.map Prod.fst

/-- Dict lookup `ds[variable_name]`. -/
def lookupVar (ds : Dataset) (variable_name : String) : Option Grid :=
  (ds.data_vars.find? fun p => p.1 == variable_name).map Prod.snd

/-- Model of `check_variable` (lines 71-80): returns the boolean result
together with the printed lines. -/
def check_variable (ds : Dataset) (variable_name : String) :
    Bool × List String :=
  if (dataVarNames ds).contains variable_name then
    (true, ["✓ " ++ variable_name ++ " found in dataset"])
  else
    (false, ["✗ " ++ variable_name ++ " not found in dataset",
             "Available variables: " ++ String.intercalate ", " (dataVarNames ds)])

/-- Model of `get_spatial_data_as_list` (lines 323-377): if the variable is
absent, print a message and return `[]` (lines 343-345); otherwise run the
extraction loop on the variable's 2-D slice.  Result: printed lines paired
with the triplet list. -/
def get_spatial_data_as_list (ds : Dataset) (variable_name : String)
    (skip_nan : Bool) : List String × List Triplet :=
  match lookupVar ds variable_name with
  | none => (["Cannot extract: " ++ variable_name ++ " not found"], [])
  | some g =>
      let r := extract_triplets g.lats g.lons g.values skip_nan
      (["Extracted " ++ toString r.length ++ " data points"], r)

/-- Model of Python `file_pattern.replace("*", "")` (line 41): remove every
star character. -/
def removeStars (s : String) : String :=
  (s.toList.filter fun c => c ≠ '*').asString

/-- Model of Python `str.endswith`: suffix test on the character list. -/
def strEndsWith (s suf : String) : Bool := suf.toList.isSuffixOf s.toList

/-- The file-selection comprehension of `open_local_datasets`
(lines 44-48): keep exactly the directory entries whose name ends with the
pattern minus its stars.  (`os.path.join` prefixes the folder path onto
each kept name; the prefix plays no role in selection and is omitted.) -/
def selected_files (folder_files : List String) (file_pattern : String) :
    List String :=
  folder_files.filter fun f => strEndsWith f (removeStars file_pattern)

/-- Model of `open_local_datasets` (lines 19-68) up to the point where the
kept files are handed to `xr.open_mfdataset` (a library call): raise
`FileNotFoundError` when no file matches (lines 50-51), else return the
kept file names.  The Python message also interpolates the folder path;
the model keeps the rest of the text. -/
def open_local_datasets (folder_files : List String) (file_pattern : String) :
    Except String (List String) :=
  let file_extension := removeStars file_pattern
  let files := selected_files folder_files file_pattern
  if files.isEmpty then
    Except.error ("No " ++ file_extension ++ " files found")
  else
    Except.ok files

/-- Model of the CPython `random` module state.  MT19937 state after
`random.seed(n)` is a function of `n` alone; we record the seed and how
many words have been drawn. -/
structure RandomState where
  seed : Nat
  drawn : Nat
deriving DecidableEq, Repr

/-- Model of `random.seed(n)` (line 413): the module state becomes a
function of `n` only, discarding whatever state was there before. -/
def randomSeed (n : Nat) : RandomState := ⟨n, 0⟩

/-- Concrete deterministic 64-bit mixer standing in for the MT19937 output
words (the generator internals are CPython library code, not repository
code; only determinism in the seed matters for the claims). -/
def mixWord (n : Nat) : Nat :=
  (n * 6364136223846793005 + 1442695040888963407) % (2 ^ 64)

/-- Model of `random._randbelow(n)`: a value in `[0, n)` determined by the
state, advancing the state by one draw.  Requires `0 < n` to be meaningful;
`% 0` never arises in `samplePool` below. -/
def randBelow (s : RandomState) (n : Nat) : Nat × RandomState :=
  (mixWord (s.seed * (2 ^ 32) + s.drawn) % n, ⟨s.seed, s.drawn + 1⟩)

/-- CPython `random.sample` pool method (the branch taken when the
selection-set size bound exceeds the population, as with 150000 and
100000): a partial Fisher-Yates.  `n` is the number of still-unconsumed
pool slots, `k` the number of draws left. -/
def samplePool (s : RandomState) (pool : List Triplet) (n : Nat) :
    Nat → List Triplet → List Triplet
  | 0, acc => acc.reverse
  | k + 1, acc =>
      let js := randBelow s n
      let x := pool.getD js.1 default
      let pool2 := pool.set js.1 (pool.getD (n - 1) default)
      samplePool js.2 pool2 (n - 1) k (x :: acc)

/-- Model of `random.sample(population, k)`: raises `ValueError` when
`k` exceeds the population size, else draws `k` elements without
replacement via the pool method on `pool = list(population)`. -/
def randomSample (s : RandomState) (population : List Triplet) (k : Nat) :
    Except String (List Triplet) :=
  if k ≤ population.length then
    Except.ok (samplePool s population population.length k [])
  else
    Except.error "Sample larger than population or is negative"

/-- The web subsampling step of the script (lines 410-416): when the
triplet list exceeds 100000 entries, re-seed the module with 42 and sample
100000 of them; otherwise pass the list through unchanged.  `entropy` is
the module state before the step (it is overwritten by `random.seed(42)`
in the sampling branch and never read). -/
def data_list_web (entropy : RandomState) (data_list : List Triplet) :
    Except String (List Triplet) :=
  if data_list.length > 100000 then
    let _ := entropy
    randomSample (randomSeed 42) data_list 100000
  else
    Except.ok data_list

/-- Modelled from the spec: the rescale step of the optional post-filter
(spec 4.2), found in a repository script that is not under `src/`: a
retained value `v` is mapped to `0.5 + v/max*0.5`. -/
def rescale (m v : ℚ) : ℚ := 1 / 2 + v / m * (1 / 2)

/-- Modelled from the spec: the threshold pass of the optional post-filter
(spec 4.2), in a repository script not under `src/`: keep exactly the
values at or above the threshold. -/
def retainedValues (threshold : ℚ) (vs : List ℚ) : List ℚ :=
  vs.filter fun v => threshold ≤ v

/-- Concrete 2×2 grid used by the closed witnesses below. -/
def demoGrid : Grid := ⟨[1, 2], [10, 20], [[some 3, none], [some 5, some 7]]⟩

/-- Concrete one-variable dataset used by the closed witnesses below. -/
def demoDs : Dataset := ⟨[("ColumnAmountNO2", demoGrid)]⟩

/-! Helper lemmas shared by the claim theorems. -/

/-- A `filterMap` that either drops an element or keeps its image is the
filter of the mapped list. -/
theorem filterMap_drop_eq_filter_map {α β : Type} (f : α → β) (q : β → Bool)
    (l : List α) :
    (l.filterMap fun a => if q (f a) then none else some (f a))
      = (l.map f).filter fun b => !q b := by
  induction l with
  | nil => rfl
  | cons a t ih =>
      simp only [List.filterMap_cons, List.map_cons, List.filter_cons]
      by_cases h : q (f a)
      · simp [h, ih]
      · simp [h, ih]

/-- The extraction loop is the row-major enumeration filtered by the
NaN-skipping predicate. -/
theorem extract_triplets_eq_filter (lats lons : List ℚ)
    (values : List (List (Option ℚ))) (skip_nan : Bool) :
    extract_triplets lats lons values skip_nan
      = (rowMajorTriplets lats lons values).filter
          fun t => !(skip_nan && pdIsna t.value) := by
  simp only [extract_triplets, rowMajorTriplets, List.filter_flatMap]
  congr 1
  funext i
  exact filterMap_drop_eq_filter_map
    (fun j => (⟨lats.getD i 0, lons.getD j 0, (values.getD i []).getD j none⟩ : Triplet))
    (fun t => skip_nan && pdIsna t.value) (List.range lons.length)

/-- The row-major enumeration has exactly one entry per grid cell. -/
theorem rowMajorTriplets_length (lats lons : List ℚ)
    (values : List (List (Option ℚ))) :
    (rowMajorTriplets lats lons values).length
      = lats.length * lons.length := by
  simp [rowMajorTriplets, List.length_flatMap, Function.comp_def,
    List.map_const', List.sum_replicate, smul_eq_mul]

/-- When the variable is found, the extraction result is the loop output. -/
theorem get_spatial_snd_of_found (ds : Dataset) (variable_name : String)
    (skip_nan : Bool) (g : Grid)
    (hfind : lookupVar ds variable_name = some g) :
    (get_spatial_data_as_list ds variable_name skip_nan).2
      = extract_triplets g.lats g.lons g.values skip_nan := by
  simp [get_spatial_data_as_list, hfind]



/-- The pool sampler returns exactly `k` draws on top of the accumulator. -/
theorem samplePool_length :
    ∀ (k : Nat) (s : RandomState) (pool : List Triplet) (n : Nat)
      (acc : List Triplet),
      (samplePool s pool n k acc).length = k + acc.length := by
  intro k
  induction k with
  | zero => intro s pool n acc; simp [samplePool]
  | succ m ih =>
      intro s pool n acc
      simp only [samplePool]
      rw [ih]
      simp only [List.length_cons]
      omega

/-- Every element the pool sampler emits comes from the accumulator or the
pool, provided no more draws remain than unconsumed slots. -/
theorem samplePool_mem :
    ∀ (k : Nat) (s : RandomState) (pool : List Triplet) (n : Nat)
      (acc : List Triplet) (x : Triplet),
      k ≤ n → n ≤ pool.length →
      x ∈ samplePool s pool n k acc → x ∈ acc ∨ x ∈ pool := by
  intro k
  induction k with
  | zero =>
      intro s pool n acc x _ _ hx
      simp only [samplePool, List.mem_reverse] at hx
      exact Or.inl hx
  | succ m ih =>
      intro s pool n acc x hk hnp hx
      simp only [samplePool] at hx
      have hn : 0 < n := lt_of_lt_of_le (Nat.succ_pos m) hk
      have hjlt : (randBelow s n).1 < n := Nat.mod_lt _ hn
      have hjp : (randBelow s n).1 < pool.length := lt_of_lt_of_le hjlt hnp
      have hn1 : n - 1 < pool.length := lt_of_lt_of_le (Nat.sub_lt hn one_pos) hnp
      have hgj : pool.getD (randBelow s n).1 default ∈ pool := by
        rw [List.getD_eq_getElem pool default hjp]; exact List.getElem_mem hjp
      have hgn : pool.getD (n - 1) default ∈ pool := by
        rw [List.getD_eq_getElem pool default hn1]; exact List.getElem_mem hn1
      have hrec := ih (randBelow s n).2
        (pool.set (randBelow s n).1 (pool.getD (n - 1) default)) (n - 1)
        (pool.getD (randBelow s n).1 default :: acc) x
        (by omega) (by rw [List.length_set]; omega) hx
      rcases hrec with h | h
      · rcases List.mem_cons.mp h with h | h
        · exact Or.inr (h ▸ hgj)
        · exact Or.inl h
      · rcases List.mem_or_eq_of_mem_set h with h | h
        · exact Or.inr h
        · exact Or.inr (h ▸ hgn)

/-- C6: for every retained value `v` (with `0 < threshold ≤ v ≤ max`), the
rescale step `0.5 + v/max*0.5` lands in `[0.5, 1.0]`, and the value equal
to the maximum rescales to exactly `1.0`. -/
theorem rescale_law (threshold v m : ℚ) (ht : 0 < threshold)
    (hv : threshold ≤ v) (hm : v ≤ m) :
    (1 / 2 ≤ rescale m v ∧ rescale m v ≤ 1) ∧ rescale m m = 1 := by
  have hv0 : 0 < v := lt_of_lt_of_le ht hv
  have hm0 : 0 < m := lt_of_lt_of_le hv0 hm
  refine ⟨⟨?_, ?_⟩, ?_⟩
  · have hd : 0 ≤ v / m := le_of_lt (div_pos hv0 hm0)
    unfold rescale; nlinarith
  · have hd : v / m ≤ 1 := (div_le_one hm0).mpr hm
    unfold rescale; nlinarith
  · unfold rescale
    rw [div_self (ne_of_gt hm0)]
    norm_num

theorem rescale_law_witness :
    ((0 : ℚ) < 1 ∧ (1 : ℚ) ≤ 2 ∧ (2 : ℚ) ≤ 4)
    ∧ ((1 / 2 ≤ rescale 4 2 ∧ rescale 4 2 ≤ 1) ∧ rescale 4 4 = 1) :=
  ⟨⟨by norm_num, by norm_num, by norm_num⟩,
   rescale_law 1 2 4 (by norm_num) (by norm_num) (by norm_num)⟩

/-- C7: when no file in the folder matches the requested pattern,
`open_local_datasets` raises `FileNotFoundError` (lines 50-51). -/
theorem open_local_datasets_no_match (folder_files : List String)
    (file_pattern : String)
    (h : selected_files folder_files file_pattern = []) :
    open_local_datasets folder_files file_pattern
      = Except.error ("No " ++ removeStars file_pattern ++ " files found") := by
  simp [open_local_datasets, h]

theorem open_local_datasets_no_match_witness :
    selected_files ["readme.txt"] "*.nc" = []
    ∧ open_local_datasets ["readme.txt"] "*.nc"
        = Except.error ("No " ++ removeStars "*.nc" ++ " files found") :=
  ⟨by decide, open_local_datasets_no_match ["readme.txt"] "*.nc" (by decide)⟩

/-- C3 (counterexample): with zero files found, the very first pipeline
step `open_local_datasets` raises `FileNotFoundError` instead of letting
the run complete with 0 output rows — refuting the claim at the concrete
empty input with the script's own pattern. -/
theorem empty_dataset_raises :
    open_local_datasets [] "*.he5.nc"
      = Except.error "No .he5.nc files found" := by rfl

/-- C3 (amended): on an empty input dataset (zero files found), for every
file pattern the loader raises `FileNotFoundError`, so the run aborts
rather than completing with a 0-row output. -/
theorem empty_dataset_aborts (file_pattern : String) :
    open_local_datasets [] file_pattern
      = Except.error ("No " ++ removeStars file_pattern ++ " files found") := by
  simp [open_local_datasets, selected_files]

/-- C10: `open_local_datasets` selects files by suffix only — a folder
entry is kept iff its name ends with the pattern with every star removed.
In particular a pattern with a non-trailing star is not treated as a glob:
`"data*.nc"` keeps `"xdata.nc"`. -/
theorem selected_files_suffix_only :
    (∀ (folder_files : List String) (file_pattern f : String),
        f ∈ selected_files folder_files file_pattern
          ↔ f ∈ folder_files
            ∧ strEndsWith f (removeStars file_pattern) = true)
    ∧ selected_files ["A.he5.nc", "notes.txt"] "*.he5.nc" = ["A.he5.nc"]
    ∧ selected_files ["xdata.nc"] "data*.nc" = ["xdata.nc"] := by
  refine ⟨?_, by decide, by decide⟩
  intro folder_files file_pattern f
  simp [selected_files, List.mem_filter]

/-- C9: the web subsampling step runs only above 100000 triplets; a list of
at most 100000 (including exactly 100000) passes through unchanged — same
elements, same order, no random draw. -/
theorem data_list_web_passthrough (entropy : RandomState)
    (data_list : List Triplet) (h : data_list.length ≤ 100000) :
    data_list_web entropy data_list = Except.ok data_list := by
  unfold data_list_web
  rw [if_neg (by omega)]

theorem data_list_web_passthrough_witness :
    (List.replicate 100000 (default : Triplet)).length ≤ 100000
    ∧ data_list_web ⟨0, 0⟩ (List.replicate 100000 (default : Triplet))
        = Except.ok (List.replicate 100000 (default : Triplet)) :=
  ⟨by rw [List.length_replicate],
   data_list_web_passthrough ⟨0, 0⟩ _ (by rw [List.length_replicate])⟩

/-- C5: subsampling 150000 triplets to the 100000 cap with the fixed seed
42 is deterministic — the result is independent of the random-module state
before the step (`random.seed(42)` overwrites it), and it is a
100000-element selection drawn from the input list. -/
theorem data_list_web_deterministic (s1 s2 : RandomState)
    (data_list : List Triplet) (h : data_list.length = 150000) :
    data_list_web s1 data_list = data_list_web s2 data_list
    ∧ ∃ r, data_list_web s1 data_list = Except.ok r
        ∧ r.length = 100000 ∧ ∀ x ∈ r, x ∈ data_list := by
  have hrun : ∀ s : RandomState, data_list_web s data_list
      = Except.ok (samplePool (randomSeed 42) data_list data_list.length
          100000 []) := by
    intro s
    unfold data_list_web randomSample
    rw [if_pos (by omega), if_pos (by omega)]
  refine ⟨by rw [hrun s1, hrun s2], ⟨_, hrun s1, ?_, ?_⟩⟩
  · rw [samplePool_length]; rfl
  · intro x hx
    have := samplePool_mem 100000 (randomSeed 42) data_list data_list.length
      [] x (by omega) (le_refl _) hx
    rcases this with hh | hh
    · exact absurd hh (List.not_mem_nil x)
    · exact hh

theorem data_list_web_deterministic_witness :
    (List.replicate 150000 (default : Triplet)).length = 150000
    ∧ (data_list_web ⟨0, 0⟩ (List.replicate 150000 (default : Triplet))
          = data_list_web ⟨99, 7⟩ (List.replicate 150000 (default : Triplet))
       ∧ ∃ r, data_list_web ⟨0, 0⟩ (List.replicate 150000 (default : Triplet))
            = Except.ok r ∧ r.length = 100000
            ∧ ∀ x ∈ r, x ∈ List.replicate 150000 (default : Triplet)) :=
  ⟨by rw [List.length_replicate],
   data_list_web_deterministic ⟨0, 0⟩ ⟨99, 7⟩ _ (by rw [List.length_replicate])⟩


/-- C1: on a well-formed R×C grid, `get_spatial_data_as_list` is the
row-major (latitude-major) outer-product enumeration of the cells —
latitude index outermost, longitude index innermost, each element the
triplet `[lat, lon, value]` of its cell — filtered by the NaN-skipping
predicate, so its length is at most R*C. -/
theorem get_spatial_row_major (ds : Dataset) (variable_name : String)
    (skip_nan : Bool) (g : Grid)
    (hfind : lookupVar ds variable_name = some g)
    (_hwf : GridWF g.lats g.lons g.values) :
    (get_spatial_data_as_list ds variable_name skip_nan).2
        = (rowMajorTriplets g.lats g.lons g.values).filter
            (fun t => !(skip_nan && pdIsna t.value))
      ∧ (get_spatial_data_as_list ds variable_name skip_nan).2.length
          ≤ g.lats.length * g.lons.length := by
  rw [get_spatial_snd_of_found ds variable_name skip_nan g hfind,
      extract_triplets_eq_filter]
  refine ⟨rfl, ?_⟩
  calc ((rowMajorTriplets g.lats g.lons g.values).filter
          fun t => !(skip_nan && pdIsna t.value)).length
      ≤ (rowMajorTriplets g.lats g.lons g.values).length :=
        List.length_filter_le _ _
    _ = g.lats.length * g.lons.length := rowMajorTriplets_length _ _ _

theorem get_spatial_row_major_witness :
    (lookupVar demoDs "ColumnAmountNO2" = some demoGrid
     ∧ GridWF demoGrid.lats demoGrid.lons demoGrid.values)
    ∧ ((get_spatial_data_as_list demoDs "ColumnAmountNO2" true).2
          = (rowMajorTriplets demoGrid.lats demoGrid.lons demoGrid.values).filter
              (fun t => !(true && pdIsna t.value))
       ∧ (get_spatial_data_as_list demoDs "ColumnAmountNO2" true).2.length
            ≤ demoGrid.lats.length * demoGrid.lons.length) :=
  ⟨⟨by decide, by unfold GridWF; decide⟩,
   get_spatial_row_major demoDs "ColumnAmountNO2" true demoGrid
     (by decide) (by unfold GridWF; decide)⟩

/-- C2: with the default `skip_nan=True`, every triplet produced by
`get_spatial_data_as_list` has a non-NaN value that is exactly the grid
value at its (lat, lon) cell — no triplet comes from a missing cell. -/
theorem get_spatial_skipnan_sound (ds : Dataset) (variable_name : String)
    (g : Grid) (t : Triplet)
    (hfind : lookupVar ds variable_name = some g)
    (ht : t ∈ (get_spatial_data_as_list ds variable_name true).2) :
    pdIsna t.value = false
    ∧ ∃ i j, i < g.lats.length ∧ j < g.lons.length
        ∧ t.lat = g.lats.getD i 0 ∧ t.lon = g.lons.getD j 0
        ∧ t.value = (g.values.getD i []).getD j none := by
  rw [get_spatial_snd_of_found ds variable_name true g hfind] at ht
  simp only [extract_triplets, List.mem_flatMap, List.mem_filterMap,
    List.mem_range, Bool.true_and] at ht
  obtain ⟨i, hi, j, hj, hval⟩ := ht
  by_cases hnan : pdIsna ((g.values.getD i []).getD j none) = true
  · rw [if_pos hnan] at hval
    exact absurd hval (by simp)
  · rw [if_neg hnan] at hval
    have ht2 : t = ⟨g.lats.getD i 0, g.lons.getD j 0,
        (g.values.getD i []).getD j none⟩ := by
      injection hval with hv
      exact hv.symm
    subst ht2
    exact ⟨by simpa using hnan, i, j, hi, hj, rfl, rfl, rfl⟩

theorem get_spatial_skipnan_sound_witness :
    (lookupVar demoDs "ColumnAmountNO2" = some demoGrid
     ∧ (⟨1, 10, some 3⟩ : Triplet)
          ∈ (get_spatial_data_as_list demoDs "ColumnAmountNO2" true).2)
    ∧ (pdIsna (⟨1, 10, some 3⟩ : Triplet).value = false
       ∧ ∃ i j, i < demoGrid.lats.length ∧ j < demoGrid.lons.length
           ∧ (⟨1, 10, some 3⟩ : Triplet).lat = demoGrid.lats.getD i 0
           ∧ (⟨1, 10, some 3⟩ : Triplet).lon = demoGrid.lons.getD j 0
           ∧ (⟨1, 10, some 3⟩ : Triplet).value
               = (demoGrid.values.getD i []).getD j none) :=
  ⟨⟨by decide, by decide⟩,
   get_spatial_skipnan_sound demoDs "ColumnAmountNO2" demoGrid ⟨1, 10, some 3⟩
     (by decide) (by decide)⟩

/-- C8: with `skip_nan=False`, `get_spatial_data_as_list` returns exactly
one triplet per cell — the full row-major enumeration of all R*C cells,
NaN cells included with the NaN emitted in the triplet. -/
theorem get_spatial_keep_nan (ds : Dataset) (variable_name : String)
    (g : Grid)
    (hfind : lookupVar ds variable_name = some g)
    (_hwf : GridWF g.lats g.lons g.values) :
    (get_spatial_data_as_list ds variable_name false).2
        = rowMajorTriplets g.lats g.lons g.values
      ∧ (get_spatial_data_as_list ds variable_name false).2.length
          = g.lats.length * g.lons.length := by
  have he : (get_spatial_data_as_list ds variable_name false).2
      = rowMajorTriplets g.lats g.lons g.values := by
    rw [get_spatial_snd_of_found ds variable_name false g hfind,
        extract_triplets_eq_filter]
    simp
  exact ⟨he, by rw [he, rowMajorTriplets_length]⟩

theorem get_spatial_keep_nan_witness :
    (lookupVar demoDs "ColumnAmountNO2" = some demoGrid
     ∧ GridWF demoGrid.lats demoGrid.lons demoGrid.values)
    ∧ ((get_spatial_data_as_list demoDs "ColumnAmountNO2" false).2
          = rowMajorTriplets demoGrid.lats demoGrid.lons demoGrid.values
       ∧ (get_spatial_data_as_list demoDs "ColumnAmountNO2" false).2.length
            = demoGrid.lats.length * demoGrid.lons.length) :=
  ⟨⟨by decide, by unfold GridWF; decide⟩,
   get_spatial_keep_nan demoDs "ColumnAmountNO2" demoGrid
     (by decide) (by unfold GridWF; decide)⟩

/-- C4: when the requested variable is absent from the dataset,
`get_spatial_data_as_list` prints the problem and returns the empty list
(its total return models the no-raise early exit of lines 343-345), and
`check_variable` returns `false` while printing the available
alternatives. -/
theorem variable_not_found_path (ds : Dataset) (variable_name : String)
    (skip_nan : Bool) (h : variable_name ∉ dataVarNames ds) :
    get_spatial_data_as_list ds variable_name skip_nan
        = (["Cannot extract: " ++ variable_name ++ " not found"], [])
    ∧ (check_variable ds variable_name).1 = false
    ∧ ("Available variables: "
          ++ String.intercalate ", " (dataVarNames ds))
        ∈ (check_variable ds variable_name).2 := by
  have hnone : (ds.data_vars.find? fun p => p.1 == variable_name) = none :=
    List.find?_eq_none.mpr (by
      intro p hp hq
      rw [beq_iff_eq] at hq
      exact h (hq ▸ List.mem_map_of_mem Prod.fst hp))
  have hfind : lookupVar ds variable_name = none := by
    unfold lookupVar
    rw [hnone]
    rfl
  refine ⟨?_, ?_, ?_⟩
  · simp [get_spatial_data_as_list, hfind]
  · simp [check_variable, h]
  · simp [check_variable, h]

theorem variable_not_found_path_witness :
    "NO2Total" ∉ dataVarNames demoDs
    ∧ (get_spatial_data_as_list demoDs "NO2Total" true
          = (["Cannot extract: " ++ "NO2Total" ++ " not found"], [])
       ∧ (check_variable demoDs "NO2Total").1 = false
       ∧ ("Available variables: "
             ++ String.intercalate ", " (dataVarNames demoDs))
           ∈ (check_variable demoDs "NO2Total").2) :=
  ⟨by decide, variable_not_found_path demoDs "NO2Total" true (by decide)⟩
